import Mathlib

/-!
Verification development for the Okta example full-stack application.

The definitions below are a shallow embedding of the application's
authentication-related logic:

- the client-side session state mirror (authState) and the SecureRoute
  route guard (three identical copies exist in the sources);
- the Express backend's authenticateToken middleware and the
  GET /api/protected handler (server.js);
- the data-fetching logic of each view (UsersList in both its plain and
  MUI variants, AwsDashboard, Protected, UserProfile) and the UserRoles
  role editor.

Asynchronous effects are embedded by passing the outcome of each awaited
step explicitly: token acquisition is an Except String String (a rejected
promise carries its message), and a fetch call is an Except String of an
HTTP response (a transport failure carries its message, a completed call
carries status and body).  React state updates become explicit state
records threaded through the functions; alongside the final state, each
fetch function returns whether the network request was actually issued
(and the role updater returns how many times the onRolesUpdated callback
was invoked).
-/

/-- The authState object exposed by the Okta SDK, as far as the guarded
code inspects it.  The surrounding Option models the Unknown phase in
which authState is still null. -/
structure AuthState where
  isAuthenticated : Bool
deriving DecidableEq

/-- Truthiness of the JavaScript expression authState?.isAuthenticated:
false when authState is absent, otherwise the flag itself. -/
def isAuth (authState : Option AuthState) : Bool :=
  match authState with
  | none => false
  | some s => s.isAuthenticated

/-- Rendering decision of a guard evaluation: the neutral loading
placeholder, a Navigate element with target and replace flag, or the
wrapped children. -/
inductive Render (α : Type) where
  | loading : Render α
  | redirect (target : String) (replace : Bool) : Render α
  | children (c : α) : Render α

/-- The SecureRoute component (identical in all three copies of the app
entry file): null authState renders a loading div, an unauthenticated
state renders a Navigate to the root with replace, and an authenticated
state renders the children unchanged. -/
def SecureRoute {α : Type} (authState : Option AuthState) (children : α) : Render α :=
  match authState with
  | none => Render.loading
  | some s =>
    if !s.isAuthenticated then Render.redirect "/" true
    else Render.children children

/-- A single evaluation of the guard together with the session state it
leaves behind: the component body only reads authState (its sole other
effect is a console.log), so the state passes through unchanged. -/
def SecureRouteEval {α : Type} (authState : Option AuthState) (children : α) :
    Render α × Option AuthState :=
  (SecureRoute authState children, authState)

/-- n successive evaluations of the guard, each starting from the session
state the previous one left behind; returns the list of rendering
decisions and the final session state. -/
def evalRepeat {α : Type} (n : Nat) (authState : Option AuthState) (children : α) :
    List (Render α) × Option AuthState :=
  match n with
  | 0 => ([], authState)
  | Nat.succ k =>
    let step := SecureRouteEval authState children
    let rest := evalRepeat k step.2 children
    (step.1 :: rest.1, rest.2)

/-- Decoded JWT claims, embedded as a key-value association list. -/
abbrev Claims := List (String × String)

/-- An incoming backend request, as far as the middleware inspects it:
the value of the authorization header, if present. -/
structure ServerRequest where
  authorization : Option String
deriving DecidableEq

/-- Splitting a character list at every single space, accumulating the
current chunk in reverse; the JavaScript semantics of split with the one
character separator, written structurally so it evaluates by
reduction. -/
def splitOnSpaceAux (cs : List Char) (cur : List Char) : List String :=
  match cs with
  | [] => [String.mk cur.reverse]
  | c :: rest =>
    if c = ' ' then String.mk cur.reverse :: splitOnSpaceAux rest []
    else splitOnSpaceAux rest (c :: cur)

/-- The JavaScript expression s.split with a single space separator. -/
def splitOnSpace (s : String) : List String :=
  splitOnSpaceAux s.toList []

/-- The token extraction in server.js: authHeader and authHeader.split
by a space at index 1, followed by the falsiness test on the result
(undefined or the empty string both fail it). -/
def extractToken (authHeader : Option String) : Option String :=
  match authHeader with
  | none => none
  | some h =>
    if h = "" then none
    else
      match (splitOnSpace h).get? 1 with
      | none => none
      | some t => if t = "" then none else some t

/-- Outcome of the authenticateToken middleware: an early rejection with
a status and message, or a pass-through to the handler carrying the
verified token's claims in req.user. -/
inductive AuthMiddlewareResult where
  | rejected (status : Nat) (message : String) : AuthMiddlewareResult
  | authorized (claims : Claims) : AuthMiddlewareResult
deriving DecidableEq

/-- The authenticateToken middleware of server.js.  The Okta JWT
verifier is abstracted as a function returning the decoded claims of the
tokens it accepts.  A missing (falsy) token yields 401 with message
No token provided; a token the verifier rejects yields 403 with message
Invalid token; otherwise the request is authorized with the claims. -/
def authenticateToken (verify : String → Option Claims) (req : ServerRequest) :
    AuthMiddlewareResult :=
  match extractToken req.authorization with
  | none => AuthMiddlewareResult.rejected 401 "No token provided"
  | some t =>
    match verify t with
    | none => AuthMiddlewareResult.rejected 403 "Invalid token"
    | some claims => AuthMiddlewareResult.authorized claims

/-- A backend JSON response: HTTP status, the message field of the body,
and the user (claims) field of the body when present. -/
structure ServerResponse where
  status : Nat
  message : String
  user : Option Claims
deriving DecidableEq

/-- Composition of the middleware with a route handler, as performed by
app.get with authenticateToken: a rejection is sent directly and the
handler is never invoked; otherwise the handler runs on the claims. -/
def withAuth (verify : String → Option Claims) (handler : Claims → ServerResponse)
    (req : ServerRequest) : ServerResponse :=
  match authenticateToken verify req with
  | AuthMiddlewareResult.rejected s m => ⟨s, m, none⟩
  | AuthMiddlewareResult.authorized claims => handler claims

/-- The GET /api/protected handler body of server.js: a fixed message
and the decoded claims stored in req.user. -/
def protectedHandler (claims : Claims) : ServerResponse :=
  ⟨200, "This is a protected route", some claims⟩

/-- The full GET /api/protected endpoint: authenticateToken composed
with the protected handler. -/
def apiProtected (verify : String → Option Claims) (req : ServerRequest) : ServerResponse :=
  withAuth verify protectedHandler req

/-- A request carries no valid bearer token: either no (truthy) token can
be extracted from its authorization header, or the extracted token is
rejected by the verifier. -/
def noValidToken (verify : String → Option Claims) (req : ServerRequest) : Bool :=
  match extractToken req.authorization with
  | none => true
  | some t => (verify t).isNone

/-- A completed HTTP response as the client views see it: status, the
parsed JSON body (when the view parses it), and the raw body text (used
by the error paths that call response.text). -/
structure HttpResponse (α : Type) where
  status : Nat
  body : α
  bodyText : String
deriving DecidableEq

/-- The ok flag of a fetch Response: status in the range 200 to 299. -/
def HttpResponse.ok {α : Type} (r : HttpResponse α) : Bool :=
  decide (200 ≤ r.status) && decide (r.status ≤ 299)

/-- Result of awaiting oktaAuth.getAccessToken: the token string, or the
message of a rejected promise. -/
abbrev TokenResult := Except String String

/-- Result of awaiting a fetch call: a completed response, or the message
of a transport failure. -/
abbrev FetchResult (α : Type) := Except String (HttpResponse α)

/-- A role as returned by the backend. -/
structure Role where
  name : String
deriving DecidableEq

/-- A user row as returned by GET /api/users. -/
structure User where
  id : Nat
  email : String
  full_name : String
  is_active : Bool
  roles : List Role
deriving DecidableEq

/-- View state of the plain UsersList component: users (null until
loaded), error, loading. -/
structure UsersListState where
  users : Option (List User)
  error : Option String
  loading : Bool
deriving DecidableEq

namespace UsersList

/-- The fetchUsers effect of the plain UsersList component.  Everything
is wrapped in the authState?.isAuthenticated guard; inside it, a failure
of getAccessToken or of fetch is caught, setting error to the failure's
message and users to null; a non-ok response throws the permission
message on 403 and a generic status message otherwise; a successful
response stores the parsed users and clears error; finally always clears
loading.  The second component records whether fetch was reached. -/
def fetchUsers (authState : Option AuthState) (tokenRes : TokenResult)
    (fetchRes : FetchResult (List User)) (st : UsersListState) :
    UsersListState × Bool :=
  if isAuth authState then
    match tokenRes with
    | Except.error m => (⟨none, some m, false⟩, false)
    | Except.ok _ =>
      match fetchRes with
      | Except.error m => (⟨none, some m, false⟩, true)
      | Except.ok resp =>
        if !resp.ok then
          let msg :=
            if resp.status = 403 then "You do not have permission to view the users list."
            else "Error fetching users: " ++ toString resp.status
          (⟨none, some msg, false⟩, true)
        else (⟨some resp.body, none, false⟩, true)
  else (st, false)

end UsersList

/-- View state of the MUI UsersList variant (the one hosting the role
editor): users starts as an empty array rather than null. -/
structure UsersListMuiState where
  users : List User
  error : Option String
  isLoading : Bool
deriving DecidableEq

namespace UsersListMui

/-- The fetchUsers callback of the MUI UsersList variant.  An
unauthenticated state returns immediately; otherwise loading is set and
error cleared, a failure of getAccessToken or fetch sets error to its
message (users is left untouched), a non-ok response throws the status
message, and a successful response replaces users; finally clears
loading. -/
def fetchUsers (authState : Option AuthState) (tokenRes : TokenResult)
    (fetchRes : FetchResult (List User)) (st : UsersListMuiState) :
    UsersListMuiState × Bool :=
  if !(isAuth authState) then (st, false)
  else
    match tokenRes with
    | Except.error m => ({ st with error := some m, isLoading := false }, false)
    | Except.ok _ =>
      match fetchRes with
      | Except.error m => ({ st with error := some m, isLoading := false }, true)
      | Except.ok resp =>
        if !resp.ok then
          let msg := "Failed to fetch users: " ++ toString resp.status
          ({ st with error := some msg, isLoading := false }, true)
        else ({ st with users := resp.body, error := none, isLoading := false }, true)

end UsersListMui

/-- A service line inside an AWS account cost card. -/
structure Service where
  name : String
  cost : ℚ
deriving DecidableEq

/-- An account as rendered by AccountCostCard. -/
structure Account where
  name : String
  id : String
  cost : ℚ
  budgetLimit : ℚ
  topServices : List Service
deriving DecidableEq

/-- The AWS cost summary payload of GET /api/aws/organization-usage. -/
structure AwsData where
  accounts : List Account
  totalCost : ℚ
  costByService : List (String × ℚ)
  costTrend : List (String × ℚ)
deriving DecidableEq

/-- The initial awsData value of the AwsDashboard component. -/
def initialAwsData : AwsData := ⟨[], 0, [], []⟩

/-- View state of the AwsDashboard component. -/
structure AwsDashboardState where
  loading : Bool
  error : Option String
  awsData : AwsData
deriving DecidableEq

/-- The fetchAwsData effect of AwsDashboard.  An unauthenticated state
returns immediately; otherwise loading is set and error cleared, a
failure of getAccessToken or fetch sets error to its message leaving
awsData untouched, a non-ok response throws the status message, a
successful response replaces awsData wholesale; finally clears
loading. -/
def fetchAwsData (authState : Option AuthState) (tokenRes : TokenResult)
    (fetchRes : FetchResult AwsData) (st : AwsDashboardState) :
    AwsDashboardState × Bool :=
  if !(isAuth authState) then (st, false)
  else
    match tokenRes with
    | Except.error m => ({ st with error := some m, loading := false }, false)
    | Except.ok _ =>
      match fetchRes with
      | Except.error m => ({ st with error := some m, loading := false }, true)
      | Except.ok resp =>
        if !resp.ok then
          let msg := "Failed to fetch AWS data: " ++ toString resp.status
          ({ st with error := some msg, loading := false }, true)
        else ({ st with awsData := resp.body, error := none, loading := false }, true)

/-- The percentageOfTotal computation of AccountCostCard. -/
def percentageOfTotal (account : Account) : ℚ :=
  account.cost / account.budgetLimit * 100

/-- The isOverBudget flag of AccountCostCard. -/
def isOverBudget (account : Account) : Bool :=
  decide (100 < percentageOfTotal account)

/-- The value prop passed to the LinearProgress widget:
Math.min of percentageOfTotal and 100. -/
def linearProgressValue (account : Account) : ℚ :=
  min (percentageOfTotal account) 100

/-- View state of the Protected page (the variant with backendData and
error state). -/
structure ProtectedState (β : Type) where
  backendData : Option β
  error : Option String
deriving DecidableEq

/-- The fetchProtectedData effect of the Protected page.  Inside the
authState?.isAuthenticated guard, a failure of getAccessToken or fetch
is caught, setting error to its message and backendData to null; a
non-ok response throws a message built from the status and the response
body text; a successful response stores the parsed body and clears
error.  There is no loading flag in this component. -/
def fetchProtectedData {β : Type} (authState : Option AuthState) (tokenRes : TokenResult)
    (fetchRes : FetchResult β) (st : ProtectedState β) :
    ProtectedState β × Bool :=
  if isAuth authState then
    match tokenRes with
    | Except.error m => (⟨none, some m⟩, false)
    | Except.ok _ =>
      match fetchRes with
      | Except.error m => (⟨none, some m⟩, true)
      | Except.ok resp =>
        if !resp.ok then
          (⟨none, some ("Backend error: " ++ toString resp.status ++ " - " ++ resp.bodyText)⟩,
            true)
        else (⟨some resp.body, none⟩, true)
  else (st, false)

/-- View state of the UserProfile page. -/
structure ProfileState (γ : Type) where
  userData : Option γ
  error : Option String
deriving DecidableEq

/-- The fetchUserData effect of UserProfile.  Inside the guard, three
awaited SDK calls precede the fetch (getAccessToken, token.getUserInfo,
getIdToken); a rejection of any of them, or of the fetch, is caught,
setting error to its message and userData to null; a non-ok response
throws a message built from the status and body text; success stores
the parsed body and clears error. -/
def fetchUserData {γ : Type} (authState : Option AuthState) (tokenRes : TokenResult)
    (userInfoRes : Except String Unit) (idTokenRes : Except String String)
    (fetchRes : FetchResult γ) (st : ProfileState γ) :
    ProfileState γ × Bool :=
  if isAuth authState then
    match tokenRes with
    | Except.error m => (⟨none, some m⟩, false)
    | Except.ok _ =>
      match userInfoRes with
      | Except.error m => (⟨none, some m⟩, false)
      | Except.ok _ =>
        match idTokenRes with
        | Except.error m => (⟨none, some m⟩, false)
        | Except.ok _ =>
          match fetchRes with
          | Except.error m => (⟨none, some m⟩, true)
          | Except.ok resp =>
            if !resp.ok then
              (⟨none,
                some ("Backend error: " ++ toString resp.status ++ " - " ++ resp.bodyText)⟩,
                true)
            else (⟨some resp.body, none⟩, true)
  else (st, false)

/-- View state of the UserRoles role editor. -/
structure RoleEditorState where
  selectedRole : String
  error : Option String
  isLoading : Bool
deriving DecidableEq

/-- The role derived from the user prop, as the component computes it in
its initial state and in its error revert: user.roles at index 0, its
name if truthy, else the ROLE_BASIC_USER default. -/
def defaultRoleOf (user : User) : String :=
  match user.roles.head? with
  | none => "ROLE_BASIC_USER"
  | some r => if r.name = "" then "ROLE_BASIC_USER" else r.name

/-- The parsed body of a successful PUT /api/users/id/role call. -/
structure RoleUpdateBody where
  id : Nat
  roles : List Role
deriving DecidableEq

/-- The updateRole function of UserRoles.  An unauthenticated state
returns immediately; otherwise loading is set and error cleared; a
failure of getAccessToken or fetch, or a non-ok response (which throws a
message built from the status and the response body text), is caught,
setting error to the message and reverting selectedRole to the
prop-derived role; a successful response leaves the selection as it is
and invokes onRolesUpdated when supplied; finally clears loading.  The
second component counts the onRolesUpdated invocations. -/
def updateRole (authState : Option AuthState) (user : User) (tokenRes : TokenResult)
    (fetchRes : FetchResult RoleUpdateBody) (hasCallback : Bool)
    (st : RoleEditorState) : RoleEditorState × Nat :=
  if !(isAuth authState) then (st, 0)
  else
    match tokenRes with
    | Except.error m => (⟨defaultRoleOf user, some m, false⟩, 0)
    | Except.ok _ =>
      match fetchRes with
      | Except.error m => (⟨defaultRoleOf user, some m, false⟩, 0)
      | Except.ok resp =>
        if !resp.ok then
          (⟨defaultRoleOf user,
            some ("Failed to update role: " ++ toString resp.status ++ " - " ++ resp.bodyText),
            false⟩, 0)
        else ({ st with error := none, isLoading := false }, if hasCallback then 1 else 0)

/-- The handleRoleChange handler of UserRoles: the selection is set to
the newly chosen role, then updateRole runs on the resulting state. -/
def handleRoleChange (authState : Option AuthState) (user : User) (newRole : String)
    (tokenRes : TokenResult) (fetchRes : FetchResult RoleUpdateBody)
    (hasCallback : Bool) (st : RoleEditorState) : RoleEditorState × Nat :=
  updateRole authState user tokenRes fetchRes hasCallback
    { st with selectedRole := newRole }

/-- A demonstration verifier for concrete witnesses: accepts exactly the
token tok123 with a single subject claim. -/
def verifyDemo (t : String) : Option Claims :=
  if t = "tok123" then some [("sub", "user1")] else none

/-- A demonstration user row for concrete witnesses. -/
def user42 : User :=
  ⟨42, "user42@example.com", "User FortyTwo", true, [⟨"ROLE_BASIC_USER"⟩]⟩

/-- A demonstration 403 response to the role update call. -/
def resp403 : HttpResponse RoleUpdateBody :=
  ⟨403, ⟨0, []⟩, "Insufficient privileges"⟩

/-- A demonstration 200 response to the role update call, carrying the
updated assignment from the specification scenario. -/
def resp200 : HttpResponse RoleUpdateBody :=
  ⟨200, ⟨42, [⟨"ROLE_ADMIN"⟩]⟩, ""⟩

/-- A demonstration role editor state in sync with the user42 prop. -/
def editorSt : RoleEditorState := ⟨"ROLE_BASIC_USER", none, false⟩

/-- A demonstration account whose cost exceeds its budget limit. -/
def acctOver : Account := ⟨"Prod", "123456789012", 150, 100, []⟩

/-- A demonstration account held by the dashboard before a failing
refetch. -/
def acctDemo : Account := ⟨"Dev", "210987654321", 10, 20, []⟩

/-- A demonstration 200 users response. -/
def respUsersDemo : HttpResponse (List User) := ⟨200, [user42], ""⟩

/-- A demonstration 200 AWS data response. -/
def respAwsDemo : HttpResponse AwsData := ⟨200, initialAwsData, ""⟩

/-- A demonstration 200 claims-bearing response. -/
def respClaimsDemo : HttpResponse Claims := ⟨200, [("sub", "user1")], ""⟩

/-- C1: rendering the route guard with Session state Unknown (authState
absent) yields the neutral loading placeholder and no redirect; with
Session state Unauthenticated it yields a redirect to the default
landing route and never the subtree's children; with Session state
Authenticated it yields the children unchanged and no redirect. -/
theorem secureRouteContract {α : Type} (c : α) :
    SecureRoute none c = Render.loading ∧
    (∀ t r, SecureRoute none c ≠ Render.redirect t r) ∧
    SecureRoute (some ⟨false⟩) c = Render.redirect "/" true ∧
    (∀ d : α, SecureRoute (some ⟨false⟩) c ≠ Render.children d) ∧
    SecureRoute (some ⟨true⟩) c = Render.children c ∧
    (∀ t r, SecureRoute (some ⟨true⟩) c ≠ Render.redirect t r) := by
  refine ⟨rfl, ?_, rfl, ?_, rfl, ?_⟩
  · intro t r h
    exact Render.noConfusion h
  · intro d h
    exact Render.noConfusion h
  · intro t r h
    exact Render.noConfusion h

/-- C7: the route guard is idempotent and free of side effects on the
session: n successive evaluations of SecureRoute from any fixed Session
state all yield the same rendering decision, and the session state is
unchanged afterwards. -/
theorem secureRouteIdempotent {α : Type} (n : Nat) (s : Option AuthState) (c : α) :
    (evalRepeat n s c).1 = List.replicate n (SecureRoute s c) ∧
    (evalRepeat n s c).2 = s := by
  induction n with
  | zero => exact ⟨rfl, rfl⟩
  | succ k ih =>
    refine ⟨?_, ?_⟩
    · simp only [evalRepeat, SecureRouteEval, List.replicate]
      exact congrArg (SecureRoute s c :: ·) ih.1
    · simpa only [evalRepeat, SecureRouteEval] using ih.2

/-- C6: the GET /api/protected endpoint requires a bearer token.  Every
request from which a token is extracted that the verifier accepts gets a
200 response whose body carries the decoded claims; every request with
no valid bearer token gets a 401 or 403 response, never 200, and no
claims in the body. -/
theorem apiProtectedBearerContract (verify : String → Option Claims) (req : ServerRequest) :
    (∀ t claims, extractToken req.authorization = some t → verify t = some claims →
      apiProtected verify req = ⟨200, "This is a protected route", some claims⟩) ∧
    (noValidToken verify req = true →
      ((apiProtected verify req).status = 401 ∨ (apiProtected verify req).status = 403) ∧
      (apiProtected verify req).user = none ∧ (apiProtected verify req).status ≠ 200) := by
  constructor
  · intro t claims ht hv
    simp [apiProtected, withAuth, authenticateToken, ht, hv, protectedHandler]
  · intro h
    unfold noValidToken at h
    cases hx : extractToken req.authorization with
    | none => simp [apiProtected, withAuth, authenticateToken, hx]
    | some t =>
      have h2 : (verify t).isNone = true := by
        rw [hx] at h
        exact h
      cases hv : verify t with
      | none => simp [apiProtected, withAuth, authenticateToken, hx, hv]
      | some claims =>
        rw [hv] at h2
        simp at h2

/-- C6 witness: with the demonstration verifier, the request carrying
the accepted bearer token receives the claims with status 200, and the
request carrying a rejected token receives a non-200 status with no
claims. -/
theorem apiProtectedBearerContractWitness :
    apiProtected verifyDemo ⟨some "Bearer tok123"⟩ =
      ⟨200, "This is a protected route", some [("sub", "user1")]⟩ ∧
    (((apiProtected verifyDemo ⟨some "Bearer wrong"⟩).status = 401 ∨
        (apiProtected verifyDemo ⟨some "Bearer wrong"⟩).status = 403) ∧
      (apiProtected verifyDemo ⟨some "Bearer wrong"⟩).user = none ∧
      (apiProtected verifyDemo ⟨some "Bearer wrong"⟩).status ≠ 200) :=
  ⟨(apiProtectedBearerContract verifyDemo ⟨some "Bearer tok123"⟩).1 "tok123" [("sub", "user1")]
      (by decide) (by decide),
    (apiProtectedBearerContract verifyDemo ⟨some "Bearer wrong"⟩).2 (by decide)⟩

/-- C8: the authentication middleware distinguishes its two failure
modes: no extractable token yields 401 with message No token provided,
while an extracted token the verifier rejects yields 403 with message
Invalid token; in both cases the response is the same for every handler,
so the protected handler is never invoked. -/
theorem authenticateTokenFailureModes (verify : String → Option Claims) (req : ServerRequest) :
    (extractToken req.authorization = none →
      authenticateToken verify req = AuthMiddlewareResult.rejected 401 "No token provided" ∧
      ∀ handler : Claims → ServerResponse,
        withAuth verify handler req = ⟨401, "No token provided", none⟩) ∧
    (∀ t, extractToken req.authorization = some t → verify t = none →
      authenticateToken verify req = AuthMiddlewareResult.rejected 403 "Invalid token" ∧
      ∀ handler : Claims → ServerResponse,
        withAuth verify handler req = ⟨403, "Invalid token", none⟩) := by
  constructor
  · intro h
    have ha : authenticateToken verify req =
        AuthMiddlewareResult.rejected 401 "No token provided" := by
      simp [authenticateToken, h]
    exact ⟨ha, fun handler => by simp [withAuth, ha]⟩
  · intro t ht hv
    have ha : authenticateToken verify req =
        AuthMiddlewareResult.rejected 403 "Invalid token" := by
      simp [authenticateToken, ht, hv]
    exact ⟨ha, fun handler => by simp [withAuth, ha]⟩

/-- C8 witness: a request with no authorization header is rejected with
401 and the fixed message, and a request whose token the demonstration
verifier rejects is rejected with 403 and the fixed message, in both
cases without invoking the protected handler. -/
theorem authenticateTokenFailureModesWitness :
    (authenticateToken verifyDemo ⟨none⟩ =
        AuthMiddlewareResult.rejected 401 "No token provided" ∧
      withAuth verifyDemo protectedHandler ⟨none⟩ = ⟨401, "No token provided", none⟩) ∧
    (authenticateToken verifyDemo ⟨some "Bearer wrong"⟩ =
        AuthMiddlewareResult.rejected 403 "Invalid token" ∧
      withAuth verifyDemo protectedHandler ⟨some "Bearer wrong"⟩ =
        ⟨403, "Invalid token", none⟩) :=
  ⟨⟨((authenticateTokenFailureModes verifyDemo ⟨none⟩).1 (by decide)).1,
    ((authenticateTokenFailureModes verifyDemo ⟨none⟩).1 (by decide)).2 protectedHandler⟩,
   ⟨((authenticateTokenFailureModes verifyDemo ⟨some "Bearer wrong"⟩).2 "wrong"
        (by decide) (by decide)).1,
    ((authenticateTokenFailureModes verifyDemo ⟨some "Bearer wrong"⟩).2 "wrong"
        (by decide) (by decide)).2 protectedHandler⟩⟩

/-- C10: for an account with a positive budget limit, the value passed
to the LinearProgress widget is the minimum of the percentage of budget
and 100, hence never exceeds 100; in particular it equals 100 exactly
whenever the cost exceeds the budget limit. -/
theorem accountCostProgressClamped (a : Account) (h : 0 < a.budgetLimit) :
    linearProgressValue a = min (a.cost / a.budgetLimit * 100) 100 ∧
    linearProgressValue a ≤ 100 ∧
    (a.budgetLimit < a.cost → linearProgressValue a = 100) := by
  refine ⟨rfl, min_le_right _ _, ?_⟩
  intro hlt
  have hx : 1 < a.cost / a.budgetLimit := (one_lt_div h).mpr hlt
  have h100 : (100 : ℚ) ≤ a.cost / a.budgetLimit * 100 := by nlinarith
  simp only [linearProgressValue, percentageOfTotal]
  exact min_eq_right h100

/-- C10 witness: the demonstration account has cost 150 against a
budget limit of 100, and its progress value evaluates to exactly 100. -/
theorem accountCostProgressClampedWitness :
    (0 : ℚ) < acctOver.budgetLimit ∧
    (linearProgressValue acctOver = min (acctOver.cost / acctOver.budgetLimit * 100) 100 ∧
      linearProgressValue acctOver ≤ 100 ∧
      (acctOver.budgetLimit < acctOver.cost → linearProgressValue acctOver = 100)) ∧
    linearProgressValue acctOver = 100 :=
  ⟨by norm_num [acctOver],
    accountCostProgressClamped acctOver (by norm_num [acctOver]),
    by
      have hp : percentageOfTotal acctOver = 150 := by
        norm_num [percentageOfTotal, acctOver]
      simp only [linearProgressValue, hp]
      exact min_eq_right (by norm_num)⟩

/-- C4: with an authenticated session, a role update PUT that returns a
non-success status makes the role editor revert its selection to the
prop-derived role — the role the user held (ROLE_BASIC_USER when the
user holds none), which equals the selection held before the attempted
change whenever that selection was in sync with the user prop — and
display an error message that embeds the error text from the response
body; the refresh callback is not invoked. -/
theorem roleUpdateFailureReverts (a : Option AuthState) (user : User)
    (newRole tok : String) (hasCallback : Bool)
    (resp : HttpResponse RoleUpdateBody) (st : RoleEditorState)
    (hauth : isAuth a = true) (hfail : resp.ok = false) :
    handleRoleChange a user newRole (Except.ok tok) (Except.ok resp) hasCallback st =
      (⟨defaultRoleOf user,
        some ("Failed to update role: " ++ toString resp.status ++ " - " ++ resp.bodyText),
        false⟩, 0) ∧
    (∃ pre, "Failed to update role: " ++ toString resp.status ++ " - " ++ resp.bodyText =
      pre ++ resp.bodyText) ∧
    (st.selectedRole = defaultRoleOf user →
      (handleRoleChange a user newRole (Except.ok tok) (Except.ok resp)
          hasCallback st).1.selectedRole = st.selectedRole) := by
  have h1 : handleRoleChange a user newRole (Except.ok tok) (Except.ok resp) hasCallback st =
      (⟨defaultRoleOf user,
        some ("Failed to update role: " ++ toString resp.status ++ " - " ++ resp.bodyText),
        false⟩, 0) := by
    simp [handleRoleChange, updateRole, hauth, hfail]
  refine ⟨h1, ⟨"Failed to update role: " ++ toString resp.status ++ " - ", rfl⟩, ?_⟩
  intro hs
  rw [h1]
  exact hs.symm

/-- C4 witness: the demonstration editor in sync with user42 attempts a
change to ROLE_ADMIN, the PUT returns 403 with body text about missing
privileges, and the editor ends with ROLE_BASIC_USER selected again and
the message embedding the body text. -/
theorem roleUpdateFailureRevertsWitness :
    isAuth (some ⟨true⟩) = true ∧ resp403.ok = false ∧
    handleRoleChange (some ⟨true⟩) user42 "ROLE_ADMIN" (Except.ok "tok")
        (Except.ok resp403) true editorSt =
      (⟨"ROLE_BASIC_USER",
        some "Failed to update role: 403 - Insufficient privileges", false⟩, 0) :=
  ⟨rfl, by decide,
    ((roleUpdateFailureReverts (some ⟨true⟩) user42 "ROLE_ADMIN" "tok" true
      resp403 editorSt rfl (by decide)).1).trans (by decide)⟩

/-- C5: with an authenticated session, a role update PUT that succeeds
leaves the newly chosen role selected, clears the error, and invokes the
supplied refresh callback exactly once. -/
theorem roleUpdateSuccessReflects (a : Option AuthState) (user : User)
    (newRole tok : String) (resp : HttpResponse RoleUpdateBody) (st : RoleEditorState)
    (hauth : isAuth a = true) (hok : resp.ok = true) :
    handleRoleChange a user newRole (Except.ok tok) (Except.ok resp) true st =
      ({ st with selectedRole := newRole, error := none, isLoading := false }, 1) := by
  simp [handleRoleChange, updateRole, hauth, hok]

/-- C5 witness: the specification scenario — authenticated session, PUT
for user 42 with the ROLE_ADMIN choice answered 200 with the updated
assignment — ends with ROLE_ADMIN selected, no error, and exactly one
refresh callback invocation. -/
theorem roleUpdateSuccessReflectsWitness :
    isAuth (some ⟨true⟩) = true ∧ resp200.ok = true ∧
    handleRoleChange (some ⟨true⟩) user42 "ROLE_ADMIN" (Except.ok "tok")
        (Except.ok resp200) true editorSt = (⟨"ROLE_ADMIN", none, false⟩, 1) :=
  ⟨rfl, by decide,
    (roleUpdateSuccessReflects (some ⟨true⟩) user42 "ROLE_ADMIN" "tok" resp200 editorSt
      rfl (by decide)).trans (by decide)⟩

/-- C2 counterexample: there is no typed AuthError distinct from a
generic network error — a rejected getAccessToken and a rejected fetch
carrying the same message drive the plain UsersList view into exactly
the same final state, so the caller cannot tell the two failure kinds
apart. -/
theorem authErrorIndistinguishable :
    (UsersList.fetchUsers (some ⟨true⟩) (Except.error "request failed")
        (Except.ok respUsersDemo) ⟨none, none, true⟩).1 =
    (UsersList.fetchUsers (some ⟨true⟩) (Except.ok "tok")
        (Except.error "request failed") ⟨none, none, true⟩).1 := rfl

/-- C2 amended: when the session is authenticated and getAccessToken
rejects, the view fails immediately — the network request is never
issued, whatever the transport would have answered — but the failure is
recorded as the rejection's message in the same untyped string error
state used for network failures, in both the plain UsersList and the
Protected view. -/
theorem tokenFailureUntypedNoRequest {β : Type} (a : Option AuthState) (m : String)
    (frU : FetchResult (List User)) (stU : UsersListState)
    (frP : FetchResult β) (stP : ProtectedState β)
    (hauth : isAuth a = true) :
    UsersList.fetchUsers a (Except.error m) frU stU = (⟨none, some m, false⟩, false) ∧
    fetchProtectedData a (Except.error m) frP stP = (⟨none, some m⟩, false) := by
  constructor
  · simp [UsersList.fetchUsers, hauth]
  · simp [fetchProtectedData, hauth]

/-- C2 amended witness: a concrete rejected token acquisition produces,
without issuing the request, the untyped message state in both views. -/
theorem tokenFailureUntypedNoRequestWitness :
    isAuth (some ⟨true⟩) = true ∧
    UsersList.fetchUsers (some ⟨true⟩) (Except.error "token renewal failed")
        (Except.ok respUsersDemo) ⟨none, none, true⟩ =
      (⟨none, some "token renewal failed", false⟩, false) ∧
    fetchProtectedData (some ⟨true⟩) (Except.error "token renewal failed")
        (Except.ok respClaimsDemo) (⟨none, none⟩ : ProtectedState Claims) =
      (⟨none, some "token renewal failed"⟩, false) :=
  ⟨rfl,
    (tokenFailureUntypedNoRequest (some ⟨true⟩) "token renewal failed"
      (Except.ok respUsersDemo) ⟨none, none, true⟩
      (Except.ok respClaimsDemo) ⟨none, none⟩ rfl).1,
    (tokenFailureUntypedNoRequest (some ⟨true⟩) "token renewal failed"
      (Except.ok respUsersDemo) ⟨none, none, true⟩
      (Except.ok respClaimsDemo) ⟨none, none⟩ rfl).2⟩

/-- C3 counterexample: a failed fetch does not clear the previously held
data in every view — on a 500 response the AwsDashboard sets the error
message but keeps its previously loaded, non-empty account data in
state. -/
theorem awsDashboardRetainsDataOnError :
    (fetchAwsData (some ⟨true⟩) (Except.ok "tok")
        (Except.ok ⟨500, initialAwsData, "server error"⟩)
        ⟨false, none, ⟨[acctDemo], 10, [], []⟩⟩).1.error =
      some "Failed to fetch AWS data: 500" ∧
    (fetchAwsData (some ⟨true⟩) (Except.ok "tok")
        (Except.ok ⟨500, initialAwsData, "server error"⟩)
        ⟨false, none, ⟨[acctDemo], 10, [], []⟩⟩).1.awsData.accounts = [acctDemo] ∧
    [acctDemo] ≠ ([] : List Account) := by
  refine ⟨by decide, rfl, by simp⟩

/-- C3 amended: with an authenticated session, a failed fetch sets every
view's error state to the failure's message, clearing the held data in
the plain UsersList, Protected and UserProfile views while the MUI
UsersList and the AwsDashboard retain their previously held data in
state; a successful fetch clears the error and replaces the data
wholesale with the response payload in every view. -/
theorem viewFetchStateContract {β γ : Type} (a : Option AuthState) (tok m : String)
    (stU : UsersListState) (stM : UsersListMuiState) (stA : AwsDashboardState)
    (stP : ProtectedState β) (idt : String) (stD : ProfileState γ)
    (respU respM : HttpResponse (List User)) (respA : HttpResponse AwsData)
    (respP : HttpResponse β) (respD : HttpResponse γ)
    (hauth : isAuth a = true)
    (hokU : respU.ok = true) (hokM : respM.ok = true) (hokA : respA.ok = true)
    (hokP : respP.ok = true) (hokD : respD.ok = true) :
    UsersList.fetchUsers a (Except.ok tok) (Except.error m) stU =
      (⟨none, some m, false⟩, true) ∧
    UsersListMui.fetchUsers a (Except.ok tok) (Except.error m) stM =
      ({ stM with error := some m, isLoading := false }, true) ∧
    fetchAwsData a (Except.ok tok) (Except.error m) stA =
      ({ stA with error := some m, loading := false }, true) ∧
    fetchProtectedData a (Except.ok tok) (Except.error m) stP =
      (⟨none, some m⟩, true) ∧
    fetchUserData a (Except.ok tok) (Except.ok ()) (Except.ok idt) (Except.error m) stD =
      (⟨none, some m⟩, true) ∧
    UsersList.fetchUsers a (Except.ok tok) (Except.ok respU) stU =
      (⟨some respU.body, none, false⟩, true) ∧
    UsersListMui.fetchUsers a (Except.ok tok) (Except.ok respM) stM =
      ({ stM with users := respM.body, error := none, isLoading := false }, true) ∧
    fetchAwsData a (Except.ok tok) (Except.ok respA) stA =
      ({ stA with awsData := respA.body, error := none, loading := false }, true) ∧
    fetchProtectedData a (Except.ok tok) (Except.ok respP) stP =
      (⟨some respP.body, none⟩, true) ∧
    fetchUserData a (Except.ok tok) (Except.ok ()) (Except.ok idt) (Except.ok respD) stD =
      (⟨some respD.body, none⟩, true) := by
  simp [UsersList.fetchUsers, UsersListMui.fetchUsers, fetchAwsData, fetchProtectedData,
    fetchUserData, hauth, hokU, hokM, hokA, hokP, hokD]

/-- C3 amended witness: concrete runs showing the plain UsersList
clearing its data on failure, the AwsDashboard keeping its data record
while taking the error message, and the Protected view replacing its
data wholesale on success. -/
theorem viewFetchStateContractWitness :
    UsersList.fetchUsers (some ⟨true⟩) (Except.ok "tok") (Except.error "boom")
        ⟨none, none, true⟩ = (⟨none, some "boom", false⟩, true) ∧
    fetchAwsData (some ⟨true⟩) (Except.ok "tok") (Except.error "boom")
        ⟨true, none, initialAwsData⟩ = (⟨false, some "boom", initialAwsData⟩, true) ∧
    fetchProtectedData (some ⟨true⟩) (Except.ok "tok") (Except.ok respClaimsDemo)
        (⟨none, none⟩ : ProtectedState Claims) = (⟨some respClaimsDemo.body, none⟩, true) := by
  have h := viewFetchStateContract (some ⟨true⟩) "tok" "boom" ⟨none, none, true⟩
    ⟨[], none, true⟩ ⟨true, none, initialAwsData⟩ (⟨none, none⟩ : ProtectedState Claims) "id"
    (⟨none, none⟩ : ProfileState Claims) respUsersDemo respUsersDemo respAwsDemo
    respClaimsDemo respClaimsDemo rfl (by decide) (by decide) (by decide) (by decide)
    (by decide)
  exact ⟨h.1, h.2.2.1, h.2.2.2.2.2.2.2.2.1⟩

/-- C9: with a session that is not authenticated (authState absent or
its flag false), every embedded fetch path — both UsersList variants,
the AWS dashboard, the Protected page, the profile page and the role
updater — returns without issuing a network request and without any
change to the view's state. -/
theorem unauthenticatedNoRequest {β γ : Type} (a : Option AuthState)
    (hguard : isAuth a = false) (tokenRes : TokenResult)
    (frU : FetchResult (List User)) (stU : UsersListState)
    (frM : FetchResult (List User)) (stM : UsersListMuiState)
    (frA : FetchResult AwsData) (stA : AwsDashboardState)
    (frP : FetchResult β) (stP : ProtectedState β)
    (uiRes : Except String Unit) (idRes : Except String String)
    (frD : FetchResult γ) (stD : ProfileState γ)
    (user : User) (frR : FetchResult RoleUpdateBody) (hasCallback : Bool)
    (stR : RoleEditorState) :
    UsersList.fetchUsers a tokenRes frU stU = (stU, false) ∧
    UsersListMui.fetchUsers a tokenRes frM stM = (stM, false) ∧
    fetchAwsData a tokenRes frA stA = (stA, false) ∧
    fetchProtectedData a tokenRes frP stP = (stP, false) ∧
    fetchUserData a tokenRes uiRes idRes frD stD = (stD, false) ∧
    updateRole a user tokenRes frR hasCallback stR = (stR, 0) := by
  simp [UsersList.fetchUsers, UsersListMui.fetchUsers, fetchAwsData, fetchProtectedData,
    fetchUserData, updateRole, hguard]

/-- C9 witness: with authState still null, concrete runs of all six
operations leave their states untouched and issue no request. -/
theorem unauthenticatedNoRequestWitness :
    isAuth (none : Option AuthState) = false ∧
    (UsersList.fetchUsers none (Except.ok "tok") (Except.ok respUsersDemo)
        ⟨none, none, true⟩ = (⟨none, none, true⟩, false) ∧
      UsersListMui.fetchUsers none (Except.ok "tok") (Except.ok respUsersDemo)
        ⟨[], none, true⟩ = (⟨[], none, true⟩, false) ∧
      fetchAwsData none (Except.ok "tok") (Except.ok respAwsDemo)
        ⟨true, none, initialAwsData⟩ = (⟨true, none, initialAwsData⟩, false) ∧
      fetchProtectedData none (Except.ok "tok") (Except.ok respClaimsDemo)
        (⟨none, none⟩ : ProtectedState Claims) = (⟨none, none⟩, false) ∧
      fetchUserData none (Except.ok "tok") (Except.ok ()) (Except.ok "id")
        (Except.ok respClaimsDemo) (⟨none, none⟩ : ProfileState Claims) =
          (⟨none, none⟩, false) ∧
      updateRole none user42 (Except.ok "tok") (Except.ok resp200) true editorSt =
        (editorSt, 0)) :=
  ⟨rfl,
    unauthenticatedNoRequest none rfl (Except.ok "tok") (Except.ok respUsersDemo)
      ⟨none, none, true⟩ (Except.ok respUsersDemo) ⟨[], none, true⟩
      (Except.ok respAwsDemo) ⟨true, none, initialAwsData⟩
      (Except.ok respClaimsDemo) ⟨none, none⟩ (Except.ok ()) (Except.ok "id")
      (Except.ok respClaimsDemo) ⟨none, none⟩ user42 (Except.ok resp200) true editorSt⟩
